import Mathlib

/-!
# ChoyOperator — scheduling and execution pipeline, shallow embedding

This file embeds the persistent scheduling/execution core of the repository
(`src/data/models.py`, `src/data/database.py`, `src/core/scheduler.py`,
`src/core/scheduler_tasks.py`, `src/data/encryption.py`) and proves or refutes
the specification claims about it.

Conventions of the embedding:
- SQLite tables are lists of row structures; SQL `UPDATE ... WHERE id = ?`
  becomes a `List.map` that rewrites matching rows, `SELECT ... WHERE id = ?`
  a `List.find?`, and `cursor.rowcount > 0` a `List.any`.
- `datetime` values are carried as their ISO-format strings (the database
  stores them as TEXT); `datetime.now()` is passed in as an explicit parameter.
- Python byte strings are `List Nat`, Python `str` values that need their
  code-point structure are `List Char`, other strings are `String`.
- Fallible collaborator calls return `Except PyExc α`; a Python
  `try/except Exception` is an explicit `match` on the `Except`.
-/

set_option maxRecDepth 8192

namespace ChoyOperator

/-- Embedding of `PostStatusEnum` from `src/data/models.py`: status of a scheduled post. -/
inductive PostStatusEnum where
  | pending
  | running
  | success
  | failed
  | cancelled
deriving DecidableEq, Repr

/-- The `.value` string of each `PostStatusEnum` member (`models.py`). -/
def PostStatusEnum.value : PostStatusEnum → String
  | .pending => "pending"
  | .running => "running"
  | .success => "success"
  | .failed => "failed"
  | .cancelled => "cancelled"

/-- A row of the `accounts` table (`database.py` `_init_database` /
`_row_to_account`).  `encrypted_password` is a nullable BLOB, modelled as an
optional byte list. -/
structure AccountRow where
  id : Nat
  platform : String
  username : String
  encryptedPassword : Option (List Nat)
  isActive : Bool
  createdAt : String
deriving DecidableEq, Repr

/-- A row of the `scheduled_posts` table (`database.py` `_init_database` /
`_row_to_post`). -/
structure PostRow where
  id : Nat
  accountId : Nat
  content : String
  scheduledTime : String
  status : PostStatusEnum
  mediaPaths : List String
  resultMessage : Option String
  postUrl : Option String
  createdAt : String
  executedAt : Option String
deriving DecidableEq, Repr

/-- The SQLite database state relevant to the claims: the `accounts` and
`scheduled_posts` tables (`database.py`).  The `logs` table plays no role in
any claim and is omitted. -/
structure Database where
  accounts : List AccountRow
  scheduledPosts : List PostRow
deriving DecidableEq, Repr

/-- Embedding of `Database.get_account` (`database.py:125`):
`SELECT * FROM accounts WHERE id = ?` with `fetchone()` — the first row whose
primary key matches, no `is_active` filter. -/
def Database.get_account (db : Database) (accountId : Nat) : Option AccountRow :=
  db.accounts.find? (fun a => a.id == accountId)

/-- Embedding of `Database.get_accounts_by_platform` (`database.py:135`):
`SELECT * FROM accounts WHERE platform = ? AND is_active = 1`. -/
def Database.get_accounts_by_platform (db : Database) (platform : String) :
    List AccountRow :=
  db.accounts.filter (fun a => a.platform == platform && a.isActive)

/-- Embedding of `Database.get_all_accounts` (`database.py:144`): all rows, filtered to
`is_active = 1` when `active_only` (its Python default is `True`). -/
def Database.get_all_accounts (db : Database) (activeOnly : Bool) :
    List AccountRow :=
  if activeOnly then db.accounts.filter (fun a => a.isActive) else db.accounts

/-- Embedding of `Database.delete_account` (`database.py:176`): a soft delete,
`UPDATE accounts SET is_active = 0 WHERE id = ?`; returns `rowcount > 0`. -/
def Database.delete_account (db : Database) (accountId : Nat) :
    Database × Bool :=
  ({ db with
      accounts := db.accounts.map (fun a =>
        if a.id == accountId then { a with isActive := false } else a) },
   db.accounts.any (fun a => a.id == accountId))

/-- Embedding of `Database.get_scheduled_post` (`database.py:220`):
`SELECT * FROM scheduled_posts WHERE id = ?` with `fetchone()`. -/
def Database.get_scheduled_post (db : Database) (postId : Nat) :
    Option PostRow :=
  db.scheduledPosts.find? (fun p => p.id == postId)

/-- Insertion of a row into a list kept ordered by `scheduled_time`
(ISO-format TEXT compares lexicographically in SQLite `ORDER BY`). -/
def insertByScheduledTime (p : PostRow) : List PostRow → List PostRow
  | [] => [p]
  | q :: rest =>
    if p.scheduledTime ≤ q.scheduledTime then p :: q :: rest
    else q :: insertByScheduledTime p rest

/-- Sort a list of post rows by `scheduled_time` ascending (the `ORDER BY
scheduled_time` of the pending query). -/
def orderByScheduledTime : List PostRow → List PostRow
  | [] => []
  | p :: rest => insertByScheduledTime p (orderByScheduledTime rest)

/-- Embedding of `Database.get_pending_posts` (`database.py:230`):
`SELECT * FROM scheduled_posts WHERE status = 'pending' ORDER BY
scheduled_time`. -/
def Database.get_pending_posts (db : Database) : List PostRow :=
  orderByScheduledTime
    (db.scheduledPosts.filter (fun p => p.status == PostStatusEnum.pending))

/-- Embedding of `Database.update_post_status` (`database.py:247`): an unconditional
`UPDATE scheduled_posts SET status = ?, result_message = ?, post_url = ?,
executed_at = ? WHERE id = ?`; `executed_at` receives `datetime.now()`,
passed here as `now`. -/
def Database.update_post_status (db : Database) (postId : Nat)
    (status : PostStatusEnum) (resultMessage : Option String)
    (postUrl : Option String) (now : String) : Database :=
  { db with
    scheduledPosts := db.scheduledPosts.map (fun p =>
      if p.id == postId then
        { p with
          status := status
          resultMessage := resultMessage
          postUrl := postUrl
          executedAt := some now }
      else p) }

/-- Lemma: `find?` commutes with a `map` whose function leaves the tested predicate
unchanged (used for `UPDATE ... WHERE id` versus `SELECT ... WHERE id`). -/
theorem find?_map_congr {α : Type} (f : α → α) (p : α → Bool) (l : List α)
    (hp : ∀ a, p (f a) = p a) :
    (l.map f).find? p = (l.find? p).map f := by
  induction l with
  | nil => rfl
  | cons a l ih =>
    by_cases h : p a = true
    · simp [List.find?_cons, hp a, h]
    · have h' : p a = false := by
        cases hpa : p a
        · rfl
        · exact absurd hpa h
      simp [List.find?_cons, hp a, h', ih]

/-! ## Scheduler Core (`src/core/scheduler.py`) -/

/-- The `job_defaults` configuration built in `SchedulerManager.__init__`
(`scheduler.py:69-73`): `coalesce = True`, `max_instances = 1`,
`misfire_grace_time = 60 * 5` seconds. -/
structure JobDefaults where
  coalesce : Bool
  maxInstances : Nat
  misfireGraceTime : Nat
deriving DecidableEq, Repr

/-- The concrete `job_defaults` value from `SchedulerManager.__init__`. -/
def schedulerJobDefaults : JobDefaults :=
  { coalesce := true, maxInstances := 1, misfireGraceTime := 60 * 5 }

/-- One persisted APScheduler job, as stored by `schedule_post`
(`scheduler.py:103`) in the `SQLAlchemyJobStore` (`scheduler.db`): a
`DateTrigger` time plus the `execute_scheduled_post` kwargs. -/
structure Job where
  id : String
  runAt : String
  platform : String
  accountId : Nat
  content : String
  mediaPaths : List String
deriving DecidableEq, Repr

/-- The scheduler's persistent state: the `SQLAlchemyJobStore` contents
(`scheduler.db`, a file separate from the application database) and the
`_started` flag of `SchedulerManager`. -/
structure SchedulerState where
  jobstore : List Job
  started : Bool
deriving DecidableEq, Repr

/-- Embedding of `SchedulerManager.start` (`scheduler.py:89`): calls
`self.scheduler.start()` and sets `_started`.  It takes no reference to the
application `Database` and issues no Post Store query; the only durable
input is the scheduler's own jobstore. -/
def SchedulerManager.start (s : SchedulerState) : SchedulerState :=
  if s.started then s else { s with started := true }

/-- The in-memory timer table of a running `BackgroundScheduler`: on start,
APScheduler loads exactly the jobs persisted in its configured jobstore
(`scheduler.db`); a stopped scheduler has no active timers. -/
def SchedulerState.activeTimers (s : SchedulerState) : List Job :=
  if s.started then s.jobstore else []

/-- The APScheduler event codes listened for in `SchedulerManager.__init__`
(`EVENT_JOB_EXECUTED | EVENT_JOB_ERROR | EVENT_JOB_MISSED`). -/
inductive EventCode where
  | executed
  | error
  | missed
deriving DecidableEq, Repr

/-- An exception value as observed through Python's `str(e)`. -/
structure PyExc where
  msg : String
deriving DecidableEq, Repr

/-- The result dict returned by the Execution Task
(`scheduler_tasks.execute_scheduled_post`): keys `status`, `message` and —
on some paths — `post_url`.  A missing or `None` `post_url` key is modelled
as `none`. -/
structure ResultDict where
  status : String
  message : String
  postUrl : Option String
deriving DecidableEq, Repr

/-- A `JobExecutionEvent` as consumed by `SchedulerManager._on_job_event`
(`scheduler.py:199`): the code, the job id, and — depending on the code —
the task's return value (`retval`) or the raised exception. -/
structure JobExecutionEvent where
  code : EventCode
  jobId : String
  retval : Option ResultDict
  exc : Option PyExc
deriving DecidableEq, Repr

/-- The observable side effects `_on_job_event` could perform.  The
constructor `dbWrite` stands for a `Database.update_post_status` call on the
Post Store; it is part of the effect vocabulary so that its absence from the
handler's output is a statement about the code, not about the model. -/
inductive SchedulerEffect where
  | callbackExecuted (jobId : String) (retval : Option ResultDict)
  | callbackError (jobId : String) (exc : Option PyExc)
  | dbWrite (postId : Nat) (status : PostStatusEnum)
      (resultMessage : Option String) (postUrl : Option String)
deriving DecidableEq, Repr

/-- Whether an effect is a Post Store status write. -/
def SchedulerEffect.isDbWrite : SchedulerEffect → Bool
  | .dbWrite _ _ _ _ => true
  | _ => false

/-- The callback wiring of a `SchedulerManager`: whether `on_job_executed`
and `on_job_error` were passed to `__init__` (`scheduler.py:39-52`). -/
structure SchedulerCallbacks where
  onJobExecuted : Bool
  onJobError : Bool
deriving DecidableEq, Repr

/-- Embedding of `SchedulerManager._on_job_event` (`scheduler.py:199-214`): dispatches on
the event code, invoking the matching callback when one is set; the missed
branch only logs.  The handler performs no Post Store write on any branch. -/
def SchedulerManager.onJobEvent (cb : SchedulerCallbacks)
    (ev : JobExecutionEvent) : List SchedulerEffect :=
  match ev.code with
  | .executed =>
    if cb.onJobExecuted then [.callbackExecuted ev.jobId ev.retval] else []
  | .error =>
    if cb.onJobError then [.callbackError ev.jobId ev.exc] else []
  | .missed => []

/-- The callback wiring of the singleton returned by `get_scheduler`
(`scheduler.py:221`): `SchedulerManager()` is constructed with both
callbacks left at their `None` defaults. -/
def getSchedulerCallbacks : SchedulerCallbacks :=
  { onJobExecuted := false, onJobError := false }

/-! ## Worker-pool concurrency model (`ThreadPoolExecutor` +
`max_instances`, `scheduler.py:65-73`)

APScheduler's executor submits a fired job only while the number of
running instances of that job id is below the configured `max_instances`,
and otherwise drops the fire (`MaxInstancesReachedError`).  That library
behaviour is modelled by the step relation below; the repository's
contribution is the configuration `max_instances = 1` in
`schedulerJobDefaults`. -/

/-- The executor's view of in-flight work: the multiset of job ids with a
running instance, as a list. -/
structure ExecState where
  running : List String
deriving DecidableEq, Repr

/-- One scheduling event under a `max_instances` bound: a timer fire that is
admitted (count below the bound), a timer fire that is dropped (bound
reached), or a running instance finishing. -/
inductive ExecStep (maxInstances : Nat) : ExecState → ExecState → Prop where
  | fire (j : String) (s : ExecState)
      (h : s.running.count j < maxInstances) :
      ExecStep maxInstances s ⟨j :: s.running⟩
  | fireDropped (j : String) (s : ExecState)
      (h : maxInstances ≤ s.running.count j) :
      ExecStep maxInstances s s
  | finish (j : String) (s : ExecState) :
      ExecStep maxInstances s ⟨s.running.erase j⟩

/-- States reachable from the idle executor (no instance running). -/
inductive ExecReachable (maxInstances : Nat) : ExecState → Prop where
  | init : ExecReachable maxInstances ⟨[]⟩
  | step {s t : ExecState} (hr : ExecReachable maxInstances s)
      (hs : ExecStep maxInstances s t) : ExecReachable maxInstances t

/-- Each step preserves the per-job instance bound. -/
theorem ExecStep.preserves_instance_bound {m : Nat} {s t : ExecState}
    (hs : ExecStep m s t) (hinv : ∀ j, s.running.count j ≤ m) :
    ∀ j, t.running.count j ≤ m := by
  cases hs with
  | fire j s h =>
    intro k
    by_cases hk : k = j
    · subst hk
      simpa [List.count_cons] using h
    · simpa [List.count_cons, hk] using hinv k
  | fireDropped j s h => exact hinv
  | finish j s =>
    intro k
    by_cases hk : k = j
    · subst hk
      have h1 := List.count_erase_self k s.running
      have h2 := hinv k
      show List.count k (s.running.erase k) ≤ m
      omega
    · show List.count k (s.running.erase j) ≤ m
      rw [List.count_erase_of_ne hk]
      exact hinv k

/-- Every reachable executor state satisfies the per-job instance bound. -/
theorem ExecReachable.instance_bound {m : Nat} {s : ExecState}
    (hr : ExecReachable m s) : ∀ j, s.running.count j ≤ m := by
  induction hr with
  | init => intro j; simp
  | step hr hs ih => exact hs.preserves_instance_bound ih

/-! ## Execution Task (`src/core/scheduler_tasks.py`)

`execute_scheduled_post` orchestrates one fired job: platform dispatch,
account lookup, session restore, credential decryption, login, media
filtering, publish, browser close — all inside one `try/except Exception`
that converts any raised exception into a `failed` result dict.  The
collaborators (the `BrowserDOMPoster` facebook path, the per-platform
driver, the credential decryption, `Path.exists`) are supplied as oracles
in a `TaskEnv`; each run also produces the ordered trace of collaborator
calls it made, so that claims about calls *not* happening are statements
about the function's output. -/

/-- Embedding of `PostStatus` from `src/core/platforms/base.py`. -/
inductive PostStatus where
  | success
  | failed
  | pending
  | captchaRequired
  | authRequired
deriving DecidableEq, Repr

/-- The `.value` string of each `PostStatus` member (`base.py`). -/
def PostStatus.value : PostStatus → String
  | .success => "success"
  | .failed => "failed"
  | .pending => "pending"
  | .captchaRequired => "captcha_required"
  | .authRequired => "auth_required"

/-- Embedding of `Credentials` from `base.py`; `execute_scheduled_post` constructs it
with `two_factor_secret` left at its `None` default. -/
structure Credentials where
  username : String
  password : String
  twoFactorSecret : Option String
deriving DecidableEq, Repr

/-- Embedding of `PostResult` from `base.py`, restricted to the fields the Execution
Task reads (`status`, `message`, `post_url`). -/
structure PostResult where
  status : PostStatus
  message : String
  postUrl : Option String
deriving DecidableEq, Repr

/-- One collaborator call made by `execute_scheduled_post`, in the order
performed. -/
inductive CallEvent where
  | posterCall
  | restoreCall
  | decryptCall
  | loginCall
  | publishCall
  | closeCall
deriving DecidableEq, Repr

/-- The behaviour of the platform driver instance (`platform_class()`),
one method result per call site; `Except.error` models the method raising. -/
structure DriverBehavior where
  try_restore_session : Except PyExc Bool
  login : Credentials → Except PyExc Bool
  create_post : String → List String → Except PyExc PostResult
  close : Except PyExc Unit

/-- The collaborators of one `execute_scheduled_post` run. -/
structure TaskEnv where
  db : Database
  post_to_facebook : String → List String → Except PyExc (Bool × String)
  driver : DriverBehavior
  decrypt : List Nat → Except PyExc String
  fileExists : String → Bool

/-- Python's `str.lower()` as used for the platform key
(`platform_key = (platform or "").lower()`), written on the code-point
list.  `Char.toLower` performs the ASCII case mapping, which agrees with
Python on the ASCII platform keys this dispatch compares against. -/
def strLower (s : String) : String := ⟨s.data.map Char.toLower⟩

/-- The keys of the `PLATFORM_CLASSES` dict (`scheduler_tasks.py:21`). -/
def PLATFORM_CLASSES : List String := ["facebook", "x", "linkedin", "youtube"]

/-- Outcome of the session-restore / login block
(`scheduler_tasks.py:80-103`): an early `return` with a result dict, an
exception escaping to the outer handler, or fall-through to the publish
code. -/
inductive AuthOutcome where
  | earlyReturn (r : ResultDict)
  | raised (e : PyExc)
  | proceed
deriving DecidableEq, Repr

/-- The session-restore / login block of `execute_scheduled_post`
(`scheduler_tasks.py:80-103`): `try_restore_session` wrapped in its own
`try/except` that swallows the exception (leaving `session_restored`
false); on restore failure, an early failed return when the account has no
`encrypted_password`, otherwise decryption, then `driver.login` — an early
failed return when it returns false.  `session_restored_flag` is the value
of the `session_restored` local after the inner `try/except`
(`scheduler_tasks.py:82-86`). -/
def session_restored_flag (env : TaskEnv) : Bool :=
  match env.driver.try_restore_session with
  | .ok b => b
  | .error _ => false

/-- The remainder of the auth block (`scheduler_tasks.py:88-103`): early
failed return when no stored credential, else decrypt and login. -/
def resolve_auth (account : AccountRow) (env : TaskEnv) :
    AuthOutcome × List CallEvent :=
  if session_restored_flag env then (.proceed, [.restoreCall])
  else
    match account.encryptedPassword with
    | none =>
      (.earlyReturn
        { status := "failed"
          message := "Account has no stored credentials. Please reconnect and save login info."
          postUrl := none },
       [.restoreCall])
    | some blob =>
      match env.decrypt blob with
      | .error e => (.raised e, [.restoreCall, .decryptCall])
      | .ok password =>
        match env.driver.login
            { username := account.username
              password := password
              twoFactorSecret := none } with
        | .error e => (.raised e, [.restoreCall, .decryptCall, .loginCall])
        | .ok true => (.proceed, [.restoreCall, .decryptCall, .loginCall])
        | .ok false =>
          (.earlyReturn
            { status := "failed"
              message := "Failed to login to platform"
              postUrl := none },
           [.restoreCall, .decryptCall, .loginCall])

/-- The media filter, publish and browser-close tail of
`execute_scheduled_post` (`scheduler_tasks.py:105-119`): missing media
files are silently dropped, `driver.create_post` is invoked, then
`driver.browser.close()`, then the result dict is built from the
`PostResult`. -/
def publish_and_close (content : String) (mediaPaths : List String)
    (env : TaskEnv) : Except PyExc ResultDict × List CallEvent :=
  let media := mediaPaths.filter env.fileExists
  match env.driver.create_post content media with
  | .error e => (.error e, [.publishCall])
  | .ok result =>
    match env.driver.close with
    | .error e => (.error e, [.publishCall, .closeCall])
    | .ok _ =>
      (.ok { status := result.status.value
             message := result.message
             postUrl := result.postUrl },
       [.publishCall, .closeCall])

/-- The body of the `try:` block of `execute_scheduled_post`
(`scheduler_tasks.py:52-119`), returning either the result dict or the
exception that escapes to the surrounding `except`, together with the
trace of collaborator calls performed. -/
def execute_inner (platform : String) (accountId : Nat) (content : String)
    (mediaPaths : List String) (env : TaskEnv) :
    Except PyExc ResultDict × List CallEvent :=
  let platformKey := strLower platform
  if platformKey = "facebook" then
    -- `poster.post_to_facebook(content, media_paths, headless=True)`
    match env.post_to_facebook content mediaPaths with
    | .error e => (.error e, [.posterCall])
    | .ok (success, message) =>
      (.ok { status := if success then "success" else "failed"
             message := message
             postUrl := none },
       [.posterCall])
  else if PLATFORM_CLASSES.contains platformKey then
    match env.db.get_account accountId with
    | none =>
      (.ok { status := "failed"
             message := "Account " ++ toString accountId ++ " not found"
             postUrl := none },
       [])
    | some account =>
      match resolve_auth account env with
      | (.earlyReturn r, tr) => (.ok r, tr)
      | (.raised e, tr) => (.error e, tr)
      | (.proceed, tr) =>
        let (res, tr2) := publish_and_close content mediaPaths env
        (res, tr ++ tr2)
  else
    (.ok { status := "failed"
           message := "Unknown platform: " ++ platform
           postUrl := none },
     [])

/-- Embedding of `execute_scheduled_post` (`scheduler_tasks.py:29`): the `try:` body with
the surrounding `except Exception as e` that converts any raised exception
into `{"status": "failed", "message": str(e)}`. -/
def execute_scheduled_post (platform : String) (accountId : Nat)
    (content : String) (mediaPaths : List String) (env : TaskEnv) :
    ResultDict × List CallEvent :=
  match execute_inner platform accountId content mediaPaths env with
  | (.ok r, tr) => (r, tr)
  | (.error e, tr) =>
    ({ status := "failed", message := e.msg, postUrl := none }, tr)

/-- Substring test on strings (`needle in haystack` in Python). -/
def containsSub (needle : List Char) : List Char → Bool
  | [] => needle.isEmpty
  | c :: rest => needle.isPrefixOf (c :: rest) || containsSub needle rest

/-- String version of `containsSub`: Python `needle in hay`. -/
def strContains (hay needle : String) : Bool :=
  containsSub needle.data hay.data

/-! ## Credential encryption (`src/data/encryption.py`)

`CredentialEncryption.encrypt` is `self.fernet.encrypt(plaintext.encode())`
and `decrypt` is `self.fernet.decrypt(ciphertext).decode()`.  The repository
layers UTF-8 encoding/decoding (Python's default `str` codec) around the
Fernet primitive; the UTF-8 codec is embedded concretely below, while the
Fernet token construction itself lives in the third-party `cryptography`
package and is modelled abstractly by its documented contract. -/

/-- UTF-8 encoding of a single Unicode code point (`bytes` of Python's
`str.encode` for one character), written with `/` and `%` in place of the
equivalent shift/mask operations. -/
def utf8EncodeCodepoint (n : Nat) : List Nat :=
  if n < 128 then [n]
  else if n < 2048 then [192 + n / 64, 128 + n % 64]
  else if n < 65536 then
    [224 + n / 4096, 128 + (n / 64) % 64, 128 + n % 64]
  else
    [240 + n / 262144, 128 + (n / 4096) % 64, 128 + (n / 64) % 64,
     128 + n % 64]

/-- Python `str.encode()`: UTF-8 encoding of a string given as its code points. -/
def utf8Encode (s : List Char) : List Nat :=
  (s.map (fun c => utf8EncodeCodepoint c.toNat)).flatten

/-- One step of UTF-8 decoding: classify the leading byte `b` by the
standard ranges, consume its continuation bytes from `bs`, and return the
decoded code point with the remaining bytes; `none` on a malformed prefix
(which Python's `bytes.decode` would raise on). -/
def utf8DecodeStep (b : Nat) (bs : List Nat) : Option (Nat × List Nat) :=
  if b < 128 then some (b, bs)
  else if b < 224 then
    match bs with
    | b1 :: rest => some ((b - 192) * 64 + (b1 - 128), rest)
    | [] => none
  else if b < 240 then
    match bs with
    | b1 :: b2 :: rest =>
      some ((b - 224) * 4096 + (b1 - 128) * 64 + (b2 - 128), rest)
    | _ => none
  else
    match bs with
    | b1 :: b2 :: b3 :: rest =>
      some ((b - 240) * 262144 + (b1 - 128) * 4096 + (b2 - 128) * 64 +
        (b3 - 128), rest)
    | _ => none

/-- A decoding step never lengthens the remaining byte list. -/
theorem utf8DecodeStep_length {b : Nat} {bs : List Nat} {n : Nat}
    {rest : List Nat} (h : utf8DecodeStep b bs = some (n, rest)) :
    rest.length ≤ bs.length := by
  unfold utf8DecodeStep at h
  repeat' split at h
  all_goals first
    | exact Option.noConfusion h
    | (cases h; omega)
    | (cases h; simp only [List.length_cons]; omega)

/-- UTF-8 decoding to code points (`bytes.decode()`): repeated decoding
steps until the bytes are exhausted; a malformed tail decodes to nothing. -/
def utf8DecodeCodepoints : List Nat → List Nat
  | [] => []
  | b :: bs =>
    match h : utf8DecodeStep b bs with
    | some (n, rest) => n :: utf8DecodeCodepoints rest
    | none => []
termination_by l => l.length
decreasing_by
  have := utf8DecodeStep_length h
  simp only [List.length_cons]
  omega

/-- Python `bytes.decode()` as a string: decoded code points read back as
characters. -/
def utf8Decode (bs : List Nat) : List Char :=
  (utf8DecodeCodepoints bs).map Char.ofNat

/-- Modelled from the spec: the Credential Vault primitive ("Encrypt /
Decrypt capabilities", §1 and §6) provided by the third-party
`cryptography.fernet.Fernet` class, which is not part of this repository.
Its documented contract is that decrypting a token it produced returns the
original byte string. -/
structure FernetModel where
  encryptBytes : List Nat → List Nat
  decryptBytes : List Nat → List Nat
  decrypt_encrypt : ∀ b, decryptBytes (encryptBytes b) = b

/-- Embedding of `CredentialEncryption` (`encryption.py:18`): a wrapper holding one
Fernet instance. -/
structure CredentialEncryption where
  fernet : FernetModel

/-- Embedding of `CredentialEncryption.encrypt` (`encryption.py:93`):
`self.fernet.encrypt(plaintext.encode())`. -/
def CredentialEncryption.encrypt (enc : CredentialEncryption)
    (plaintext : List Char) : List Nat :=
  enc.fernet.encryptBytes (utf8Encode plaintext)

/-- Embedding of `CredentialEncryption.decrypt` (`encryption.py:105`):
`self.fernet.decrypt(ciphertext).decode()`. -/
def CredentialEncryption.decrypt (enc : CredentialEncryption)
    (ciphertext : List Nat) : List Char :=
  utf8Decode (enc.fernet.decryptBytes ciphertext)

/-- Unfolding rule for the decoder on a list whose decoding step
succeeds. -/
theorem utf8DecodeCodepoints_cons {b : Nat} {bs : List Nat} {n : Nat}
    {rest : List Nat} (h : utf8DecodeStep b bs = some (n, rest)) :
    utf8DecodeCodepoints (b :: bs) = n :: utf8DecodeCodepoints rest := by
  rw [utf8DecodeCodepoints]
  split
  · rename_i n' rest' h'
    rw [h] at h'
    cases h'
    rfl
  · rename_i h'
    rw [h] at h'
    cases h'

/-- Decoding inverts the single-code-point encoder in front of any byte
suffix. -/
theorem utf8DecodeCodepoints_encodeCodepoint (n : Nat) (h : n < 1114112)
    (rest : List Nat) :
    utf8DecodeCodepoints (utf8EncodeCodepoint n ++ rest) =
      n :: utf8DecodeCodepoints rest := by
  unfold utf8EncodeCodepoint
  by_cases h1 : n < 128
  · rw [if_pos h1, List.cons_append, List.nil_append]
    have hs : utf8DecodeStep n rest = some (n, rest) := by
      unfold utf8DecodeStep
      rw [if_pos h1]
    rw [utf8DecodeCodepoints_cons hs]
  · by_cases h2 : n < 2048
    · have e1 : ¬(192 + n / 64 < 128) := by omega
      have e2 : 192 + n / 64 < 224 := by omega
      rw [if_neg h1, if_pos h2, List.cons_append, List.cons_append,
        List.nil_append]
      have hs : utf8DecodeStep (192 + n / 64) ((128 + n % 64) :: rest) =
          some ((192 + n / 64 - 192) * 64 + (128 + n % 64 - 128), rest) := by
        unfold utf8DecodeStep
        rw [if_neg e1, if_pos e2]
      rw [utf8DecodeCodepoints_cons hs]
      congr 1
      omega
    · by_cases h3 : n < 65536
      · have e1 : ¬(224 + n / 4096 < 128) := by omega
        have e2 : ¬(224 + n / 4096 < 224) := by omega
        have e3 : 224 + n / 4096 < 240 := by omega
        rw [if_neg h1, if_neg h2, if_pos h3, List.cons_append,
          List.cons_append, List.cons_append, List.nil_append]
        have hs : utf8DecodeStep (224 + n / 4096)
            ((128 + n / 64 % 64) :: (128 + n % 64) :: rest) =
            some ((224 + n / 4096 - 224) * 4096 +
              (128 + n / 64 % 64 - 128) * 64 + (128 + n % 64 - 128),
              rest) := by
          unfold utf8DecodeStep
          rw [if_neg e1, if_neg e2, if_pos e3]
        rw [utf8DecodeCodepoints_cons hs]
        congr 1
        omega
      · have e1 : ¬(240 + n / 262144 < 128) := by omega
        have e2 : ¬(240 + n / 262144 < 224) := by omega
        have e3 : ¬(240 + n / 262144 < 240) := by omega
        rw [if_neg h1, if_neg h2, if_neg h3, List.cons_append,
          List.cons_append, List.cons_append, List.cons_append,
          List.nil_append]
        have hs : utf8DecodeStep (240 + n / 262144)
            ((128 + n / 4096 % 64) :: (128 + n / 64 % 64) ::
              (128 + n % 64) :: rest) =
            some ((240 + n / 262144 - 240) * 262144 +
              (128 + n / 4096 % 64 - 128) * 4096 +
              (128 + n / 64 % 64 - 128) * 64 + (128 + n % 64 - 128),
              rest) := by
          unfold utf8DecodeStep
          rw [if_neg e1, if_neg e2, if_neg e3]
        rw [utf8DecodeCodepoints_cons hs]
        congr 1
        omega

/-- Every Lean `Char` carries a Unicode scalar value below `0x110000`. -/
theorem char_toNat_lt (c : Char) : c.toNat < 1114112 := by
  rcases c.valid with h | h
  · have hlt : c.val.toNat < 55296 := h
    exact Nat.lt_trans hlt (by norm_num)
  · exact h.2

/-- UTF-8 decoding inverts UTF-8 encoding on code-point lists. -/
theorem utf8DecodeCodepoints_utf8Encode (s : List Char) :
    utf8DecodeCodepoints (utf8Encode s) = s.map Char.toNat := by
  induction s with
  | nil => simp [utf8Encode, utf8DecodeCodepoints]
  | cons c s ih =>
    have hc := char_toNat_lt c
    simp only [utf8Encode, List.map_cons, List.flatten_cons]
    rw [utf8DecodeCodepoints_encodeCodepoint c.toNat hc]
    simp only [utf8Encode] at ih
    rw [ih]

/-- UTF-8 decoding inverts UTF-8 encoding on strings. -/
theorem utf8Decode_utf8Encode (s : List Char) :
    utf8Decode (utf8Encode s) = s := by
  unfold utf8Decode
  rw [utf8DecodeCodepoints_utf8Encode, List.map_map]
  have h : ∀ c ∈ s, (Char.ofNat ∘ Char.toNat) c = id c := fun c _ =>
    Char.ofNat_toNat c
  rw [List.map_congr_left h, List.map_id]

/-! ## Generic helper lemmas -/

/-- A string starting with a non-empty literal prefix is non-empty. -/
theorem str_append_ne_empty (s t : String) (h : s.data ≠ []) : s ++ t ≠ "" := by
  intro he
  apply h
  have h2 : (s ++ t).data = "".data := by rw [he]
  rw [String.data_append s t] at h2
  exact (List.append_eq_nil.mp h2).1

/-! ## Claims -/

/-- C1: the spec claims that after the Execution Task returns its result, the
Scheduler Core writes the terminal status, message, resource locator and
execution timestamp back to the ScheduledPost row via `update_post_status`.
The event handler `_on_job_event` performs no Post Store write on any event
code and any callback wiring — it only forwards the result to the optional
callbacks (which `get_scheduler`'s singleton leaves unset), and no caller of
`Database.update_post_status` exists anywhere in the repository.  This
theorem evaluates the handler: every effect it emits satisfies
`¬ isDbWrite`, so no completed execution produces an `update_post_status`
write. -/
theorem C1_on_job_event_writes_no_status (cb : SchedulerCallbacks)
    (ev : JobExecutionEvent) :
    (SchedulerManager.onJobEvent cb ev).all (fun e => !e.isDbWrite) = true := by
  rcases ev with ⟨code, jobId, retval, exc⟩
  rcases cb with ⟨e1, e2⟩
  cases code <;> cases e1 <;> cases e2 <;> rfl

/-- C2: with the worker-pool configuration of `SchedulerManager.__init__`
(`max_instances = 1` in `job_defaults`), no job id ever has two concurrent
running executions: in every executor state reachable from idle — including
after duplicate timer fires during a slow publish, which the model admits
and drops — the instance count of every job id is at most one. -/
theorem C2_single_instance_per_job (s : ExecState)
    (hr : ExecReachable schedulerJobDefaults.maxInstances s) (j : String) :
    s.running.count j ≤ 1 :=
  hr.instance_bound j

/-- Witness for C2: the state with one running instance of `"post_7"` is
reachable (one admitted fire), and the bound holds there. -/
theorem C2_single_instance_per_job_witness :
    ExecReachable schedulerJobDefaults.maxInstances ⟨["post_7"]⟩ ∧
      (ExecState.mk ["post_7"]).running.count "post_7" ≤ 1 :=
  ⟨ExecReachable.step ExecReachable.init
      (ExecStep.fire "post_7" ⟨[]⟩ (by decide)),
   C2_single_instance_per_job ⟨["post_7"]⟩
     (ExecReachable.step ExecReachable.init
       (ExecStep.fire "post_7" ⟨[]⟩ (by decide)))
     "post_7"⟩

/-- A Post Store holding exactly one PENDING post, used to refute C3. -/
def c3Db : Database :=
  { accounts := []
    scheduledPosts :=
      [{ id := 1, accountId := 1, content := "hello"
         scheduledTime := "2026-01-01T10:00:00"
         status := .pending, mediaPaths := [], resultMessage := none
         postUrl := none, createdAt := "2026-01-01T00:00:00"
         executedAt := none }] }

/-- A scheduler whose own jobstore (`scheduler.db`) is empty, e.g. after the
post's one-shot job already ran (one-shot jobs are removed from the
jobstore) while the row stayed PENDING, or after the jobstore file was
lost. -/
def c3Sched : SchedulerState := { jobstore := [], started := false }

/-- C3 counterexample: the store holds one PENDING post, yet starting the
scheduler registers zero timers — `start()` reconstructs from the
scheduler's own jobstore, not from the Post Store's pending query, so the
claimed "exactly N timers, one per PENDING row" fails. -/
theorem C3_counterexample :
    (c3Db.get_pending_posts).length = 1 ∧
      ((SchedulerManager.start c3Sched).activeTimers).length = 0 :=
  ⟨rfl, rfl⟩

/-- C3 amended: on `Start()`, the scheduler's active timers are exactly the
jobs persisted in its own `SQLAlchemyJobStore` (`scheduler.db`); the Post
Store's pending-posts query is not consulted (`start` takes no database
input), so the timer count equals the jobstore's job count, not the number
of PENDING rows. -/
theorem C3_timers_from_jobstore (s : SchedulerState) :
    (SchedulerManager.start s).activeTimers = s.jobstore := by
  unfold SchedulerManager.start SchedulerState.activeTimers
  by_cases h : s.started <;> simp [h]

/-- A ScheduledPost row already in the terminal SUCCESS state, used for the
C4 counterexample and witness. -/
def c4Post : PostRow :=
  { id := 1, accountId := 1, content := "hello"
    scheduledTime := "2026-01-01T10:00:00"
    status := .success, mediaPaths := []
    resultMessage := some "ok", postUrl := some "https://demo/post/42"
    createdAt := "2026-01-01T00:00:00", executedAt := some "2026-01-01T10:00:01" }

/-- The store holding `c4Post`. -/
def c4Db : Database := { accounts := [], scheduledPosts := [c4Post] }

/-- C4 counterexample: a row in terminal state SUCCESS is overwritten to
FAILED by a subsequent `update_post_status` — the store performs no
compare-and-set against the expected prior state and does not protect
terminal states. -/
theorem C4_counterexample :
    (c4Db.get_scheduled_post 1).map PostRow.status = some .success ∧
      ((c4Db.update_post_status 1 .failed (some "boom") none
          "2026-01-02T00:00:00").get_scheduled_post 1).map PostRow.status =
        some .failed :=
  ⟨rfl, rfl⟩

/-- C4 amended: `update_post_status` is an unconditional overwrite — for any
row found by id, regardless of its prior status (terminal or not), the
update writes the given status, result message, post URL and execution
timestamp, with no compare-and-set against an expected prior state. -/
theorem C4_update_overwrites_unconditionally (db : Database) (postId : Nat)
    (st : PostStatusEnum) (msg url : Option String) (now : String)
    (p : PostRow) (h : db.get_scheduled_post postId = some p) :
    (db.update_post_status postId st msg url now).get_scheduled_post postId =
      some { p with
        status := st, resultMessage := msg, postUrl := url
        executedAt := some now } := by
  unfold Database.get_scheduled_post at h ⊢
  unfold Database.update_post_status
  have hp : ∀ q : PostRow,
      ((if q.id == postId then
          { q with
            status := st, resultMessage := msg, postUrl := url
            executedAt := some now }
        else q).id == postId) = (q.id == postId) := by
    intro q
    by_cases hq : (q.id == postId) = true <;> simp [hq]
  rw [find?_map_congr _ _ _ hp, h]
  have hid := List.find?_some h
  have hid2 : p.id = postId := by simpa using hid
  simp [hid2]

/-- Witness for C4's amended theorem at the concrete store `c4Db`. -/
theorem C4_update_overwrites_unconditionally_witness :
    c4Db.get_scheduled_post 1 = some c4Post ∧
      (c4Db.update_post_status 1 .failed (some "boom") none
          "2026-01-02T00:00:00").get_scheduled_post 1 =
        some { c4Post with
          status := .failed, resultMessage := some "boom", postUrl := none
          executedAt := some "2026-01-02T00:00:00" } :=
  ⟨rfl,
   C4_update_overwrites_unconditionally c4Db 1 .failed (some "boom") none
     "2026-01-02T00:00:00" c4Post rfl⟩

/-- C9: decrypting the encryption of any credential string — including the
empty string and strings of non-ASCII characters — returns the original
string: the UTF-8 encode/decode layers of `CredentialEncryption` invert
each other, and the Fernet primitive inverts by its contract. -/
theorem C9_decrypt_encrypt_roundtrip (enc : CredentialEncryption)
    (x : List Char) : enc.decrypt (enc.encrypt x) = x := by
  unfold CredentialEncryption.decrypt CredentialEncryption.encrypt
  rw [enc.fernet.decrypt_encrypt, utf8Decode_utf8Encode]

/-- C10: `delete_account` is a soft delete — after deleting an existing
account id, the row is still returned by the point lookup `get_account`
(now with `is_active` false), while `get_accounts_by_platform` (for every
platform) and `get_all_accounts` with the default `active_only = True` no
longer include any row with that id. -/
theorem C10_soft_delete (db : Database) (aid : Nat) (a : AccountRow)
    (h : db.get_account aid = some a) :
    ((db.delete_account aid).fst.get_account aid =
        some { a with isActive := false }) ∧
      (∀ pl r, r ∈ (db.delete_account aid).fst.get_accounts_by_platform pl →
        r.id ≠ aid) ∧
      (∀ r, r ∈ (db.delete_account aid).fst.get_all_accounts true →
        r.id ≠ aid) := by
  refine ⟨?_, ?_, ?_⟩
  · unfold Database.get_account at h ⊢
    unfold Database.delete_account
    have hp : ∀ q : AccountRow,
        ((if q.id == aid then { q with isActive := false } else q).id ==
          aid) = (q.id == aid) := by
      intro q
      by_cases hq : (q.id == aid) = true <;> simp [hq]
    rw [find?_map_congr _ _ _ hp, h]
    have hid := List.find?_some h
    have hid2 : a.id = aid := by simpa using hid
    simp [hid2]
  · intro pl r hr hid
    unfold Database.delete_account Database.get_accounts_by_platform at hr
    rw [List.mem_filter] at hr
    obtain ⟨hmem, hpred⟩ := hr
    rw [List.mem_map] at hmem
    obtain ⟨a0, _, hfa⟩ := hmem
    by_cases h0 : (a0.id == aid) = true
    · rw [if_pos h0] at hfa
      rw [← hfa] at hpred
      simp at hpred
    · rw [if_neg h0] at hfa
      rw [← hfa] at hid
      exact h0 (by simp [hid])
  · intro r hr hid
    unfold Database.delete_account Database.get_all_accounts at hr
    rw [if_pos rfl] at hr
    rw [List.mem_filter] at hr
    obtain ⟨hmem, hpred⟩ := hr
    rw [List.mem_map] at hmem
    obtain ⟨a0, _, hfa⟩ := hmem
    by_cases h0 : (a0.id == aid) = true
    · rw [if_pos h0] at hfa
      rw [← hfa] at hpred
      simp at hpred
    · rw [if_neg h0] at hfa
      rw [← hfa] at hid
      exact h0 (by simp [hid])

/-- An active account row used to witness C10. -/
def c10Account : AccountRow :=
  { id := 1, platform := "x", username := "user@example.com"
    encryptedPassword := none, isActive := true
    createdAt := "2026-01-01T00:00:00" }

/-- A store holding only `c10Account`. -/
def c10Db : Database := { accounts := [c10Account], scheduledPosts := [] }

/-- Witness for C10 at the concrete store `c10Db`. -/
theorem C10_soft_delete_witness :
    c10Db.get_account 1 = some c10Account ∧
      ((c10Db.delete_account 1).fst.get_account 1 =
          some { c10Account with isActive := false }) ∧
        (∀ pl r, r ∈ (c10Db.delete_account 1).fst.get_accounts_by_platform pl →
          r.id ≠ 1) ∧
        (∀ r, r ∈ (c10Db.delete_account 1).fst.get_all_accounts true →
          r.id ≠ 1) :=
  ⟨rfl, C10_soft_delete c10Db 1 c10Account rfl⟩

/-- A trivial driver behaviour whose session restore reports failure and
whose other calls succeed, used by the C5 scenario. -/
def c5Driver : DriverBehavior :=
  { try_restore_session := .ok false
    login := fun _ => .ok false
    create_post := fun _ _ => .ok { status := .success, message := "ok", postUrl := none }
    close := .ok () }

/-- A task environment whose store holds one **inactive** account (id 1)
with no stored credential, used to refute C5. -/
def c5Env : TaskEnv :=
  { db :=
      { accounts :=
          [{ id := 1, platform := "x", username := "u@example.com"
             encryptedPassword := none, isActive := false
             createdAt := "2026-01-01T00:00:00" }]
        scheduledPosts := [] }
    post_to_facebook := fun _ _ => .ok (true, "ok")
    driver := c5Driver
    decrypt := fun _ => .ok "pw"
    fileExists := fun _ => false }

/-- C5 counterexample: invoked with an account id whose row exists but is
inactive, the task does **not** return a missing-account failure
immediately — it attempts session restore (the trace contains the restore
call), because `execute_scheduled_post` only checks `if not account:` and
never consults `is_active`. -/
theorem C5_counterexample :
    ((c5Env.db.get_account 1).map AccountRow.isActive = some false) ∧
      (execute_scheduled_post "x" 1 "hi" [] c5Env).snd.contains
        CallEvent.restoreCall = true :=
  ⟨rfl, rfl⟩

/-- C5 amended: only an account id **absent** from the store triggers the
immediate missing-account failure — the task then returns FAILED with
message `"Account {id} not found"` and makes no collaborator call at all
(no session restore, login, or publish); an inactive account is not
screened and proceeds like an active one (and the facebook path performs no
account lookup at all). -/
theorem C5_absent_account_immediate_failure (platform : String)
    (accountId : Nat) (content : String) (mediaPaths : List String)
    (env : TaskEnv)
    (hk : PLATFORM_CLASSES.contains (strLower platform) = true)
    (hfb : strLower platform ≠ "facebook")
    (habs : env.db.get_account accountId = none) :
    execute_scheduled_post platform accountId content mediaPaths env =
      ({ status := "failed"
         message := "Account " ++ toString accountId ++ " not found"
         postUrl := none }, []) := by
  unfold execute_scheduled_post execute_inner
  dsimp only
  rw [if_neg hfb, if_pos hk, habs]

/-- Witness for C5's amended theorem: account id 2 is absent from
`c5Env`'s store. -/
theorem C5_absent_account_immediate_failure_witness :
    (PLATFORM_CLASSES.contains (strLower "x") = true) ∧
      (strLower "x" ≠ "facebook") ∧
      (c5Env.db.get_account 2 = none) ∧
      execute_scheduled_post "x" 2 "hi" [] c5Env =
        ({ status := "failed"
           message := "Account " ++ toString 2 ++ " not found"
           postUrl := none }, []) :=
  ⟨by decide, by decide, rfl,
   C5_absent_account_immediate_failure "x" 2 "hi" [] c5Env (by decide)
     (by decide) rfl⟩

/-- Helper for C6: when session restore does not succeed (returns false or
raises, which the inner `try/except` swallows) and the account has no
encrypted credential blob, the auth block early-returns the fixed
no-stored-credentials failure after only the restore call. -/
theorem resolve_auth_no_credentials (account : AccountRow) (env : TaskEnv)
    (hnp : account.encryptedPassword = none)
    (hres : env.driver.try_restore_session ≠ .ok true) :
    resolve_auth account env =
      (.earlyReturn
        { status := "failed"
          message := "Account has no stored credentials. Please reconnect and save login info."
          postUrl := none },
       [.restoreCall]) := by
  have hflag : session_restored_flag env = false := by
    unfold session_restored_flag
    cases hr : env.driver.try_restore_session with
    | ok b =>
      cases b
      · rfl
      · exact absurd hr hres
    | error e => rfl
  unfold resolve_auth
  rw [hflag]
  simp [hnp]

/-- An active account (login `"a@example.com"`) with no stored credential,
as in the C6 scenario. -/
def c6Account : AccountRow :=
  { id := 1, platform := "x", username := "a@example.com"
    encryptedPassword := none, isActive := true
    createdAt := "2026-01-01T00:00:00" }

/-- A driver whose `try_restore_session` returns false, as in the C6
scenario. -/
def c6Driver : DriverBehavior :=
  { try_restore_session := .ok false
    login := fun _ => .ok true
    create_post := fun _ _ => .ok { status := .success, message := "ok", postUrl := none }
    close := .ok () }

/-- The C6 scenario environment. -/
def c6Env : TaskEnv :=
  { db := { accounts := [c6Account], scheduledPosts := [] }
    post_to_facebook := fun _ _ => .ok (true, "ok")
    driver := c6Driver
    decrypt := fun _ => .ok "pw"
    fileExists := fun _ => true }

/-- C6 counterexample: in the spec's scenario (account with no stored
credential, session restore returns false) the task does return a FAILED
result without login or publish, but its message is the fixed string
`"Account has no stored credentials. Please reconnect and save login
info."`, which does **not** contain the substring `"authentication"`. -/
theorem C6_counterexample :
    (execute_scheduled_post "x" 1 "hello" [] c6Env).fst.status = "failed" ∧
      (execute_scheduled_post "x" 1 "hello" [] c6Env).fst.message =
        "Account has no stored credentials. Please reconnect and save login info." ∧
      strContains (execute_scheduled_post "x" 1 "hello" [] c6Env).fst.message
        "authentication" = false :=
  ⟨rfl, rfl, rfl⟩

/-- C6 amended: when session restore fails and the account has no encrypted
credential blob, the task returns a FAILED result with the fixed message
`"Account has no stored credentials. Please reconnect and save login
info."` (mentioning reconnection, not the word "authentication"), without
calling login or publish — the call trace is exactly the restore attempt. -/
theorem C6_no_credentials_failed (platform : String) (accountId : Nat)
    (content : String) (mediaPaths : List String) (env : TaskEnv)
    (account : AccountRow)
    (hk : PLATFORM_CLASSES.contains (strLower platform) = true)
    (hfb : strLower platform ≠ "facebook")
    (hacc : env.db.get_account accountId = some account)
    (hnp : account.encryptedPassword = none)
    (hres : env.driver.try_restore_session ≠ .ok true) :
    execute_scheduled_post platform accountId content mediaPaths env =
      ({ status := "failed"
         message := "Account has no stored credentials. Please reconnect and save login info."
         postUrl := none }, [.restoreCall]) := by
  unfold execute_scheduled_post execute_inner
  dsimp only
  rw [if_neg hfb, if_pos hk, hacc]
  dsimp only
  rw [resolve_auth_no_credentials account env hnp hres]

/-- Witness for C6's amended theorem at the concrete scenario `c6Env`. -/
theorem C6_no_credentials_failed_witness :
    (PLATFORM_CLASSES.contains (strLower "x") = true) ∧
      (strLower "x" ≠ "facebook") ∧
      (c6Env.db.get_account 1 = some c6Account) ∧
      (c6Account.encryptedPassword = none) ∧
      (c6Driver.try_restore_session ≠ .ok true) ∧
      execute_scheduled_post "x" 1 "hello" [] c6Env =
        ({ status := "failed"
           message := "Account has no stored credentials. Please reconnect and save login info."
           postUrl := none }, [.restoreCall]) :=
  ⟨by decide, by decide, rfl, rfl, by simp [c6Driver],
   C6_no_credentials_failed "x" 1 "hello" [] c6Env c6Account (by decide)
     (by decide) rfl rfl (by simp [c6Env, c6Driver])⟩

/-- Helper: the auth block's call trace is one of three prefixes — it
never contains a publish or browser-close call. -/
theorem resolve_auth_trace_cases (account : AccountRow) (env : TaskEnv) :
    (resolve_auth account env).snd = [.restoreCall] ∨
      (resolve_auth account env).snd = [.restoreCall, .decryptCall] ∨
      (resolve_auth account env).snd =
        [.restoreCall, .decryptCall, .loginCall] := by
  unfold resolve_auth
  cases hsr : session_restored_flag env
  · simp only [Bool.false_eq_true, if_false]
    cases hep : account.encryptedPassword with
    | none => left; rfl
    | some blob =>
      dsimp only
      cases hd : env.decrypt blob with
      | error e => right; left; rfl
      | ok password =>
        dsimp only
        cases hl : env.driver.login
            { username := account.username, password := password
              twoFactorSecret := none } with
        | error e => right; right; rfl
        | ok lb =>
          cases lb
          · right; right; rfl
          · right; right; rfl
  · left; rfl

/-- Helper: the publish tail always records the publish call, records the
close call exactly when `create_post` returned without raising, and its
trace is determined by the `create_post` outcome. -/
theorem publish_and_close_trace (content : String) (mediaPaths : List String)
    (env : TaskEnv) :
    (∃ r, env.driver.create_post content (mediaPaths.filter env.fileExists) =
          .ok r ∧
        (publish_and_close content mediaPaths env).snd =
          [.publishCall, .closeCall]) ∨
      (∃ e, env.driver.create_post content (mediaPaths.filter env.fileExists) =
          .error e ∧
        (publish_and_close content mediaPaths env).snd = [.publishCall]) := by
  unfold publish_and_close
  dsimp only
  cases hc : env.driver.create_post content (mediaPaths.filter env.fileExists) with
  | error e => right; exact ⟨e, rfl, rfl⟩
  | ok result =>
    left
    refine ⟨result, rfl, ?_⟩
    cases env.driver.close <;> rfl

/-- An account with a stored credential blob, used by the C8
counterexample (login-failure exit path). -/
def c8Account : AccountRow :=
  { id := 1, platform := "x", username := "u@example.com"
    encryptedPassword := some [1, 2, 3], isActive := true
    createdAt := "2026-01-01T00:00:00" }

/-- A driver whose session restore fails and whose login returns false. -/
def c8Driver : DriverBehavior :=
  { try_restore_session := .ok false
    login := fun _ => .ok false
    create_post := fun _ _ => .ok { status := .success, message := "ok", postUrl := none }
    close := .ok () }

/-- The C8 counterexample environment. -/
def c8Env : TaskEnv :=
  { db := { accounts := [c8Account], scheduledPosts := [] }
    post_to_facebook := fun _ _ => .ok (true, "ok")
    driver := c8Driver
    decrypt := fun _ => .ok "pw"
    fileExists := fun _ => true }

/-- C8 counterexample: on the login-failure exit path the task returns a
FAILED result without ever invoking the browser close operation — the call
trace of the run contains no close call, refuting "on every exit path ...
the browser close operation is invoked". -/
theorem C8_counterexample :
    (execute_scheduled_post "x" 1 "c" [] c8Env).fst.status = "failed" ∧
      (execute_scheduled_post "x" 1 "c" [] c8Env).snd.contains
        CallEvent.closeCall = false :=
  ⟨rfl, rfl⟩

/-- C8 amended: the browser close operation is invoked exactly on the runs
in which `create_post` was reached and returned without raising (publish
success or publish-reported failure); the missing-credential,
login-failure and exception exit paths return without closing the
browser. -/
theorem C8_close_only_after_publish (platform : String) (accountId : Nat)
    (content : String) (mediaPaths : List String) (env : TaskEnv) :
    CallEvent.closeCall ∈
        (execute_scheduled_post platform accountId content mediaPaths env).snd ↔
      (CallEvent.publishCall ∈
          (execute_scheduled_post platform accountId content mediaPaths env).snd ∧
        ∃ r, env.driver.create_post content (mediaPaths.filter env.fileExists) =
          .ok r) := by
  unfold execute_scheduled_post execute_inner
  dsimp only
  by_cases hfb : strLower platform = "facebook"
  · rw [if_pos hfb]
    cases hp : env.post_to_facebook content mediaPaths with
    | error e => simp
    | ok pr =>
      obtain ⟨b, s⟩ := pr
      cases b <;> simp
  · rw [if_neg hfb]
    by_cases hk : PLATFORM_CLASSES.contains (strLower platform) = true
    · rw [if_pos hk]
      cases hacc : env.db.get_account accountId with
      | none => simp
      | some account =>
        dsimp only
        have htr := resolve_auth_trace_cases account env
        cases hra : resolve_auth account env with
        | mk o tr =>
          rw [hra] at htr
          dsimp only at htr
          cases o with
          | earlyReturn r =>
            rcases htr with h | h | h <;> subst h <;> simp
          | raised e =>
            rcases htr with h | h | h <;> subst h <;> simp
          | proceed =>
            have hpt := publish_and_close_trace content mediaPaths env
            cases hpc : publish_and_close content mediaPaths env with
            | mk res tr2 =>
              rw [hpc] at hpt
              dsimp only at hpt
              rcases hpt with ⟨r, hcp2, htr2⟩ | ⟨e, hcp2, htr2⟩ <;>
                subst htr2 <;> rcases htr with h | h | h <;> subst h <;>
                cases res <;> simp [hcp2]
    · rw [if_neg hk]
      simp

/-- Helper for C7: under non-empty collaborator messages, the auth block
either proceeds, early-returns a failed dict with a non-empty message, or
raises an exception with a non-empty message. -/
theorem resolve_auth_outcome_spec (account : AccountRow) (env : TaskEnv)
    (hdec : ∀ blob e, env.decrypt blob = .error e → e.msg ≠ "")
    (hlog : ∀ cr e, env.driver.login cr = .error e → e.msg ≠ "") :
    (resolve_auth account env).fst = .proceed ∨
      (∃ r, (resolve_auth account env).fst = .earlyReturn r ∧
        r.status = "failed" ∧ r.message ≠ "") ∨
      (∃ e, (resolve_auth account env).fst = .raised e ∧ e.msg ≠ "") := by
  unfold resolve_auth
  cases hsr : session_restored_flag env
  · simp only [Bool.false_eq_true, if_false]
    cases hep : account.encryptedPassword with
    | none => right; left; exact ⟨_, rfl, rfl, by decide⟩
    | some blob =>
      dsimp only
      cases hd : env.decrypt blob with
      | error e => right; right; exact ⟨e, rfl, hdec blob e hd⟩
      | ok password =>
        dsimp only
        cases hl : env.driver.login
            { username := account.username, password := password
              twoFactorSecret := none } with
        | error e => right; right; exact ⟨e, rfl, hlog _ e hl⟩
        | ok lb =>
          cases lb
          · right; left; exact ⟨_, rfl, rfl, by decide⟩
          · left; rfl
  · left; rfl

/-- Helper for C7: under non-empty collaborator messages and a publisher
restricted to SUCCESS/FAILED result statuses, the publish tail yields
either a success dict, a failed dict with non-empty message, or an
exception with non-empty message. -/
theorem publish_and_close_result_spec (content : String)
    (mediaPaths : List String) (env : TaskEnv)
    (hpub_err : ∀ c m e, env.driver.create_post c m = .error e → e.msg ≠ "")
    (hpub_ok : ∀ c m r, env.driver.create_post c m = .ok r →
      r.message ≠ "" ∧ (r.status = .success ∨ r.status = .failed))
    (hcl : ∀ e, env.driver.close = .error e → e.msg ≠ "") :
    (∃ r, (publish_and_close content mediaPaths env).fst = .ok r ∧
        (r.status = "success" ∨ (r.status = "failed" ∧ r.message ≠ ""))) ∨
      (∃ e, (publish_and_close content mediaPaths env).fst = .error e ∧
        e.msg ≠ "") := by
  unfold publish_and_close
  dsimp only
  cases hc : env.driver.create_post content (mediaPaths.filter env.fileExists) with
  | error e => right; exact ⟨e, rfl, hpub_err _ _ e hc⟩
  | ok result =>
    cases hcv : env.driver.close with
    | error e => right; exact ⟨e, rfl, hcl e hcv⟩
    | ok u =>
      left
      refine ⟨_, rfl, ?_⟩
      obtain ⟨hmsg, hst⟩ := hpub_ok _ _ result hc
      cases hst with
      | inl hs =>
        left
        show result.status.value = "success"
        rw [hs]
        rfl
      | inr hs =>
        right
        refine ⟨?_, hmsg⟩
        show result.status.value = "failed"
        rw [hs]
        rfl

/-- A driver whose publisher raises an exception with an empty `str(e)`,
used by the C7 counterexample. -/
def c7Driver : DriverBehavior :=
  { try_restore_session := .ok true
    login := fun _ => .ok true
    create_post := fun _ _ => .error { msg := "" }
    close := .ok () }

/-- The C7 counterexample environment: an active account with a restorable
session and a publisher that raises with an empty message. -/
def c7Env : TaskEnv :=
  { db :=
      { accounts :=
          [{ id := 1, platform := "x", username := "u@example.com"
             encryptedPassword := none, isActive := true
             createdAt := "2026-01-01T00:00:00" }]
        scheduledPosts := [] }
    post_to_facebook := fun _ _ => .ok (true, "ok")
    driver := c7Driver
    decrypt := fun _ => .ok "pw"
    fileExists := fun _ => true }

/-- C7 counterexample: with a publisher whose raised exception carries an
empty `str(e)` (a behaviour the claim quantifies over), the task returns a
failure result whose message is empty — refuting "a non-empty
human-readable message". -/
theorem C7_counterexample :
    (execute_scheduled_post "x" 1 "c" [] c7Env).fst =
      { status := "failed", message := "", postUrl := none } :=
  rfl

/-- C7 amended: the Execution Task never propagates an exception — for
every input and collaborator behaviour it returns a result dict; and
provided the collaborators' exception and result messages are non-empty
and the publisher reports only SUCCESS or FAILED statuses, every result is
either a success or a failed dict with a non-empty message (an empty
collaborator message, or a publisher status such as AUTH_REQUIRED passed
through 1:1, is reflected verbatim in the result instead). -/
theorem C7_no_exception_propagation (platform : String) (accountId : Nat)
    (content : String) (mediaPaths : List String) (env : TaskEnv)
    (hfb_err : ∀ c m e, env.post_to_facebook c m = .error e → e.msg ≠ "")
    (hfb_ok : ∀ c m b s, env.post_to_facebook c m = .ok (b, s) → s ≠ "")
    (hdec : ∀ blob e, env.decrypt blob = .error e → e.msg ≠ "")
    (hlog : ∀ cr e, env.driver.login cr = .error e → e.msg ≠ "")
    (hpub_err : ∀ c m e, env.driver.create_post c m = .error e → e.msg ≠ "")
    (hpub_ok : ∀ c m r, env.driver.create_post c m = .ok r →
      r.message ≠ "" ∧ (r.status = .success ∨ r.status = .failed))
    (hcl : ∀ e, env.driver.close = .error e → e.msg ≠ "") :
    (execute_scheduled_post platform accountId content mediaPaths env).fst.status =
        "success" ∨
      ((execute_scheduled_post platform accountId content mediaPaths
            env).fst.status = "failed" ∧
        (execute_scheduled_post platform accountId content mediaPaths
            env).fst.message ≠ "") := by
  unfold execute_scheduled_post execute_inner
  dsimp only
  by_cases hfb : strLower platform = "facebook"
  · rw [if_pos hfb]
    cases hp : env.post_to_facebook content mediaPaths with
    | error e => right; exact ⟨rfl, hfb_err _ _ e hp⟩
    | ok pr =>
      obtain ⟨b, s⟩ := pr
      cases b
      · right; exact ⟨rfl, hfb_ok _ _ _ _ hp⟩
      · left; rfl
  · rw [if_neg hfb]
    by_cases hk : PLATFORM_CLASSES.contains (strLower platform) = true
    · rw [if_pos hk]
      cases hacc : env.db.get_account accountId with
      | none =>
        right
        refine ⟨rfl, ?_⟩
        have hne := str_append_ne_empty "Account "
          (toString accountId ++ " not found") (by decide)
        rw [← String.append_assoc] at hne
        exact hne
      | some account =>
        dsimp only
        have hsp := resolve_auth_outcome_spec account env hdec hlog
        cases hra : resolve_auth account env with
        | mk o tr =>
          rw [hra] at hsp
          dsimp only at hsp
          cases o with
          | earlyReturn r =>
            rcases hsp with h | ⟨r2, hr2, hst, hmsg⟩ | ⟨e, he, _⟩
            · exact AuthOutcome.noConfusion h
            · injection hr2 with hrr
              subst hrr
              right
              exact ⟨hst, hmsg⟩
            · exact AuthOutcome.noConfusion he
          | raised e =>
            rcases hsp with h | ⟨r2, hr2, _, _⟩ | ⟨e2, he2, hmsg⟩
            · exact AuthOutcome.noConfusion h
            · exact AuthOutcome.noConfusion hr2
            · injection he2 with hee
              subst hee
              right
              exact ⟨rfl, hmsg⟩
          | proceed =>
            have hps := publish_and_close_result_spec content mediaPaths env
              hpub_err hpub_ok hcl
            cases hpc : publish_and_close content mediaPaths env with
            | mk res tr2 =>
              rw [hpc] at hps
              dsimp only at hps
              rcases hps with ⟨r, hres, hgood⟩ | ⟨e, hres, hmsg⟩
              · subst hres
                rcases hgood with hs | ⟨hs, hm⟩
                · left; exact hs
                · right; exact ⟨hs, hm⟩
              · subst hres
                right
                exact ⟨rfl, hmsg⟩
    · rw [if_neg hk]
      right
      exact ⟨rfl, str_append_ne_empty "Unknown platform: " platform (by decide)⟩

/-- An all-success driver used to witness C7's amended theorem. -/
def c7wDriver : DriverBehavior :=
  { try_restore_session := .ok true
    login := fun _ => .ok true
    create_post := fun _ _ =>
      .ok { status := .success, message := "done"
            postUrl := some "https://demo/post/42" }
    close := .ok () }

/-- The witnessing environment for C7: every collaborator succeeds with a
non-empty message. -/
def c7wEnv : TaskEnv :=
  { db :=
      { accounts :=
          [{ id := 1, platform := "x", username := "u@example.com"
             encryptedPassword := none, isActive := true
             createdAt := "2026-01-01T00:00:00" }]
        scheduledPosts := [] }
    post_to_facebook := fun _ _ => .ok (true, "posted")
    driver := c7wDriver
    decrypt := fun _ => .ok "pw"
    fileExists := fun _ => true }

/-- Witness for C7's amended theorem at the concrete environment
`c7wEnv`. -/
theorem C7_no_exception_propagation_witness :
    (execute_scheduled_post "x" 1 "c" [] c7wEnv).fst.status = "success" ∨
      ((execute_scheduled_post "x" 1 "c" [] c7wEnv).fst.status = "failed" ∧
        (execute_scheduled_post "x" 1 "c" [] c7wEnv).fst.message ≠ "") :=
  C7_no_exception_propagation "x" 1 "c" [] c7wEnv
    (fun _ _ _ h => nomatch h)
    (by
      intro c m b str h
      injection h with h2
      injection h2 with h3 h4
      subst h4
      decide)
    (fun _ _ h => nomatch h)
    (fun _ _ h => nomatch h)
    (fun _ _ _ h => nomatch h)
    (by
      intro c m r h
      injection h with h2
      subst h2
      exact ⟨by decide, Or.inl rfl⟩)
    (fun _ h => nomatch h)

end ChoyOperator
